import Mathlib

/-
  Verification of the answer-grading engine of the quiz application.

  The graders are shallowly embedded from the TypeScript sources
  (src/lib/grading/numericGrader.ts, src/lib/grading/dropdownGrader.ts,
  src/lib/validation/numericQuestion.ts, src/lib/validation/dropdownQuestion.ts).
  JavaScript numbers are modelled as rationals, JavaScript strings as Lean
  strings with character-level re-implementations of the string operations the
  code uses, and the dynamically typed answer payloads as a small JSON value
  type. Field and function names follow the source; the source's
  partialCredit-related names are spelled creditAwarded / allowCredit /
  calculateCredit here.
-/

set_option allowUnsafeReducibility true in
attribute [semireducible] Rat.add Rat.mul Rat.inv Rat.sub Rat.neg Rat.div Rat.blt

/-- JSON-like value type modelling the dynamically typed (unknown) answer
payloads the graders receive. -/
inductive Json where
  | str (s : String)
  | num (q : ℚ)
  | bool (b : Bool)
  | null
  | arr (elems : List Json)
  | obj (fields : List (String × Json))

/-- Lower-casing of a single character, as JavaScript toLowerCase acts on the
ASCII range (the only range exercised by the code's inputs). -/
def jsCharLower (c : Char) : Char :=
  if 'A' ≤ c ∧ c ≤ 'Z' then Char.ofNat (c.toNat + 32) else c

/-- Model of JavaScript String.prototype.toLowerCase. -/
def jsToLower (s : String) : String :=
  ⟨s.data.map jsCharLower⟩

/-- ASCII whitespace test, the fragment of JavaScript's whitespace class that
the code's inputs exercise. -/
def jsIsWs (c : Char) : Bool :=
  c == ' ' || c == '\t' || c == '\n' || c == '\r'

/-- Model of JavaScript String.prototype.trim: strip leading and trailing
whitespace. -/
def jsTrim (s : String) : String :=
  ⟨((s.data.dropWhile jsIsWs).reverse.dropWhile jsIsWs).reverse⟩

/-- JavaScript Math.round: round half toward positive infinity. -/
def jsRound (x : ℚ) : ℤ :=
  ⌊x + 1/2⌋

/-- Model of Number(x.toFixed(dp)): round to dp decimal places, half away from
zero (the rounding convention pinned for display rounding). -/
def roundToDp (x : ℚ) (dp : ℕ) : ℚ :=
  if 0 ≤ x then ((⌊x * 10^dp + 1/2⌋ : ℤ) : ℚ) / 10^dp
  else -(((⌊(-x) * 10^dp + 1/2⌋ : ℤ) : ℚ) / 10^dp)

/-! ## Numeric grader (numericGrader.ts, gradeNumericQuestion) -/

structure NumericQuestion where
  id : String
  correctAnswer : ℚ
  tolerance : ℚ
  decimalPlaces : ℕ
  unit : Option String
deriving DecidableEq

structure NumericGradingResult where
  isCorrect : Bool
  score : ℚ
  feedback : String
  userAnswer : ℚ
  correctAnswer : ℚ
deriving DecidableEq

/-- Unit suffix appended to displayed numbers. -/
def unitSuffix : Option String → String
  | some u => " " ++ u
  | none => ""

/-- Grade a numeric question answer. -/
def gradeNumericQuestion (userAnswer : ℚ) (question : NumericQuestion) :
    NumericGradingResult :=
  let difference := |userAnswer - question.correctAnswer|
  let isCorrect : Bool := decide (difference ≤ question.tolerance)
  let roundedUserAnswer := roundToDp userAnswer question.decimalPlaces
  let roundedCorrectAnswer := roundToDp question.correctAnswer question.decimalPlaces
  let u := unitSuffix question.unit
  let feedback :=
    if isCorrect then
      if difference = 0 then
        "Correct! The exact answer is " ++ toString roundedCorrectAnswer ++ u ++ "."
      else
        "Correct! Your answer " ++ toString roundedUserAnswer ++ u ++
          " is within the acceptable range of " ++ toString roundedCorrectAnswer ++
          u ++ " ± " ++ toString question.tolerance ++ "."
    else
      "Incorrect. Your answer was " ++ toString roundedUserAnswer ++ u ++
        ". The correct answer is " ++ toString roundedCorrectAnswer ++ u ++
        (if question.tolerance > 0 then " (± " ++ toString question.tolerance ++ ")" else "") ++ "."
  { isCorrect := isCorrect
    score := if isCorrect then 1 else 0
    feedback := feedback
    userAnswer := roundedUserAnswer
    correctAnswer := roundedCorrectAnswer }

/-! ## Rating grader (numericGrader.ts, gradeRatingQuestion;
validation from validation/ratingQuestion.ts) -/

structure RatingScale where
  min : ℚ
  max : ℚ
deriving DecidableEq

structure RatingGradingResult where
  isCorrect : Bool
  score : ℚ
  feedback : String
  userRating : ℚ
  expectedRating : Option ℚ
  ratingType : String
  scale : RatingScale
deriving DecidableEq

/-- Parse of the zod RatingAnswerSchema: an object with a string questionId, a
type tag equal to RATING, and an integer rating between 1 and 10. Returns the
rating on success. -/
def ratingAnswerParse (answer : Json) : Option ℚ :=
  match answer with
  | .obj fields =>
    match fields.lookup "questionId", fields.lookup "type", fields.lookup "rating" with
    | some (.str _), some (.str t), some (.num r) =>
      if t = "RATING" ∧ r.den = 1 ∧ 1 ≤ r ∧ r ≤ 10 then some r else none
    | _, _, _ => none
  | _ => none

/-- validateRatingAnswer: zod parse, then a range check against the question's
scale. Returns some error string when invalid, none when valid. -/
def validateRatingAnswer (answer : Json) (ratingMin ratingMax : ℚ) : Option String :=
  match ratingAnswerParse answer with
  | none => some "Invalid rating format"
  | some r =>
    if r < ratingMin ∨ r > ratingMax then
      some ("Rating must be between " ++ toString ratingMin ++ " and " ++ toString ratingMax)
    else none

/-- getTypeSpecificFeedback from the source. -/
def getTypeSpecificFeedback (ratingType : String) (rating min max : ℚ) : String :=
  if ratingType = "stars" then
    if rating = max then "Excellent rating!"
    else if rating = min then "We appreciate your honest feedback"
    else ""
  else if ratingType = "emoji" then
    if rating ≥ (max - min) * (8/10) + min then "Great to see you're happy!"
    else if rating ≤ (max - min) * (2/10) + min then "We'll work to improve your experience"
    else ""
  else if ratingType = "likert" then
    if rating ≥ (max - min) * (8/10) + min then "Strong agreement noted"
    else if rating ≤ (max - min) * (2/10) + min then "Your disagreement is valuable feedback"
    else ""
  else if ratingType = "numbers" then
    "That's " ++ toString (jsRound ((rating - min) / (max - min) * 100)) ++ "% on our scale"
  else ""

/-- generateSubjectiveFeedback from the source. -/
def generateSubjectiveFeedback (rating : ℚ) (ratingType : String) (min max : ℚ) : String :=
  let percentage := (rating - min) / (max - min) * 100
  let intensityWord :=
    if percentage ≥ 80 then "very positive"
    else if percentage ≥ 60 then "positive"
    else if percentage ≥ 40 then "neutral"
    else if percentage ≥ 20 then "somewhat negative"
    else "negative"
  let typeSpecificFeedback := getTypeSpecificFeedback ratingType rating min max
  "Thank you for your " ++ intensityWord ++ " rating of " ++ toString rating ++
    (if typeSpecificFeedback ≠ "" then ". " ++ typeSpecificFeedback else ".") ++
    " Your feedback has been recorded."

/-- generatePartialCreditFeedback from the source: qualitative bands on the
closeness score. -/
def generateCreditFeedback (score : ℚ) : String :=
  if score ≥ 8/10 then "You were quite close to the expected rating."
  else if score ≥ 6/10 then "You were moderately close to the expected rating."
  else if score ≥ 4/10 then "Your rating was somewhat different from what was expected."
  else if score ≥ 2/10 then "Your rating was quite different from the expected value."
  else "Your rating was significantly different from what was expected."

/-- Grade a rating question answer. The source first calls
validateRatingAnswer and then re-reads the parsed rating from the payload;
this is modelled by one match on the parse followed by the same range check. -/
def gradeRatingQuestion (userAnswer : Json) (ratingMin ratingMax : ℚ)
    (ratingType : String) (expectedRating : Option ℚ) (tolerance : Option ℚ)
    (isSubjective : Bool) : RatingGradingResult :=
  match ratingAnswerParse userAnswer with
  | none =>
    { isCorrect := false, score := 0, feedback := "Invalid rating format"
      userRating := 0, expectedRating := expectedRating, ratingType := ratingType
      scale := ⟨ratingMin, ratingMax⟩ }
  | some userRating =>
    if userRating < ratingMin ∨ userRating > ratingMax then
      { isCorrect := false, score := 0
        feedback := "Rating must be between " ++ toString ratingMin ++ " and " ++ toString ratingMax
        userRating := 0, expectedRating := expectedRating, ratingType := ratingType
        scale := ⟨ratingMin, ratingMax⟩ }
    else if isSubjective then
      { isCorrect := true, score := 1
        feedback := generateSubjectiveFeedback userRating ratingType ratingMin ratingMax
        userRating := userRating, expectedRating := expectedRating
        ratingType := ratingType, scale := ⟨ratingMin, ratingMax⟩ }
    else
      match expectedRating with
      | some expected =>
        let actualTolerance := tolerance.getD 0
        if |userRating - expected| ≤ actualTolerance then
          { isCorrect := true, score := 1
            feedback :=
              if actualTolerance > 0 then
                "Correct! Your rating of " ++ toString userRating ++
                  " is within the acceptable range."
              else
                "Perfect! You gave the exact expected rating of " ++ toString expected ++ "."
            userRating := userRating, expectedRating := expectedRating
            ratingType := ratingType, scale := ⟨ratingMin, ratingMax⟩ }
        else
          let maxDistance := max |ratingMax - expected| |ratingMin - expected|
          let actualDistance := |userRating - expected|
          let creditScore := max 0 (1 - actualDistance / maxDistance)
          { isCorrect := false, score := creditScore
            feedback := "Your rating of " ++ toString userRating ++
              " differs from the expected rating of " ++ toString expected ++ ". " ++
              generateCreditFeedback creditScore
            userRating := userRating, expectedRating := expectedRating
            ratingType := ratingType, scale := ⟨ratingMin, ratingMax⟩ }
      | none =>
        { isCorrect := true, score := 1
          feedback := generateSubjectiveFeedback userRating ratingType ratingMin ratingMax
          userRating := userRating, expectedRating := expectedRating
          ratingType := ratingType, scale := ⟨ratingMin, ratingMax⟩ }

/-- Convenience constructor for a well-shaped rating answer payload. -/
def mkRatingAnswer (r : ℚ) : Json :=
  Json.obj [("questionId", Json.str "q"), ("type", Json.str "RATING"), ("rating", Json.num r)]

/-! ## Rating statistics (numericGrader.ts, calculateRatingStatistics) -/

structure RatingStatistics where
  average : ℚ
  median : ℚ
  mode : Finset ℚ
  distribution : ℚ → ℕ
  total : ℕ

/-- calculateRatingStatistics from the source. The JavaScript sort on numbers
is a stable ascending sort, modelled by insertion sort; the distribution
object is modelled extensionally as the value-to-count function, and the mode
as the finite set of keys realising the maximal count. -/
def calculateRatingStatistics (ratings : List ℚ) : RatingStatistics :=
  if ratings.length = 0 then
    { average := 0, median := 0, mode := ∅, distribution := fun _ => 0, total := 0 }
  else
    let average := ratings.foldl (fun sum rating => sum + rating) 0 / (ratings.length : ℚ)
    let sorted := List.insertionSort (· ≤ ·) ratings
    let median :=
      if ratings.length % 2 = 0 then
        (sorted.getD (ratings.length / 2 - 1) 0 + sorted.getD (ratings.length / 2) 0) / 2
      else sorted.getD (ratings.length / 2) 0
    let distribution : ℚ → ℕ := fun rating => ratings.count rating
    let values := ratings.toFinset
    let maxCount := values.sup fun rating => ratings.count rating
    let mode := values.filter fun rating => ratings.count rating = maxCount
    { average := (jsRound (average * 100) : ℚ) / 100
      median := median
      mode := mode
      distribution := distribution
      total := ratings.length }

/-! ## Sequence grader (numericGrader.ts, gradeSequenceQuestion;
validation from validation/sequenceQuestion.ts) -/

structure SequenceGradingResult where
  isCorrect : Bool
  score : ℚ
  feedback : String
  creditAwarded : Option ℚ
  correctSequence : List String
  userSequence : List String
deriving DecidableEq

/-- Parse of a zod array of strings. -/
def toStringList : List Json → Option (List String)
  | [] => some []
  | .str s :: rest => (toStringList rest).map (s :: ·)
  | _ => none

/-- Parse of the zod SequenceAnswerSchema: an object with a string questionId,
a type tag equal to SEQUENCE, and a nonempty array of strings. Returns the
sequence on success. -/
def seqAnswerParse (answer : Json) : Option (List String) :=
  match answer with
  | .obj fields =>
    match fields.lookup "questionId", fields.lookup "type", fields.lookup "sequence" with
    | some (.str _), some (.str t), some (.arr elems) =>
      if t = "SEQUENCE" then
        match toStringList elems with
        | some seq => if 1 ≤ seq.length then some seq else none
        | none => none
      else none
    | _, _, _ => none
  | _ => none

/-- The membership checks of validateSequenceAnswer run after the zod parse:
length equality, equality of the two id sets by cardinality, and membership of
every answer item in the correct set. -/
def checkSequenceItems (seq correctSequence : List String) : Option String :=
  if seq.length ≠ correctSequence.length then
    some ("Answer must contain exactly " ++ toString correctSequence.length ++ " items")
  else
    let correctSet := correctSequence.toFinset
    let answerSet := seq.toFinset
    if correctSet.card ≠ answerSet.card then
      some "Answer contains duplicate or missing items"
    else if seq.any (fun item => decide (item ∉ correctSet)) then
      some "Answer contains invalid items"
    else none

/-- validateSequenceAnswer: zod parse followed by the id-set checks. -/
def validateSequenceAnswer (answer : Json) (correctSequence : List String) : Option String :=
  match seqAnswerParse answer with
  | none => some "Invalid answer format"
  | some seq => checkSequenceItems seq correctSequence

/-- arraysEqual from the source: same length and element-wise equality. -/
def arraysEqual (arr1 arr2 : List String) : Bool :=
  decide (arr1.length = arr2.length) &&
    (List.range arr1.length).all (fun index => arr1.getD index "" == arr2.getD index "")

/-- calculatePositionalScore: fraction of positions holding the correct item,
with the correct length as denominator. -/
def calculatePositionalScore (userSequence correctSequence : List String) : ℚ :=
  let minLength := min userSequence.length correctSequence.length
  let correctPositions :=
    (List.range minLength).countP
      (fun i => userSequence.getD i "" == correctSequence.getD i "")
  (correctPositions : ℚ) / (correctSequence.length : ℚ)

/-- One step of the dynamic-programming table of longestCommonSubsequence:
given row i of the table (as a function of the column), build row i + 1
column by column, exactly as the source's inner loop fills dp i+1 from
dp i. -/
def lcsRowNext (seq1 seq2 : List String) (prev : ℕ → ℕ) (i : ℕ) : ℕ → ℕ
  | 0 => 0
  | j + 1 =>
    if seq1.getD i "" = seq2.getD j "" then prev j + 1
    else max (prev (j + 1)) (lcsRowNext seq1 seq2 prev i j)

/-- Row i of the longestCommonSubsequence table: lcsCell seq1 seq2 i j is the
table entry dp i j, the LCS length of the first i items of seq1 and the first
j items of seq2. Row 0 is all zeros and each following row comes from
lcsRowNext, as in the source's nested loops. -/
def lcsCell (seq1 seq2 : List String) : ℕ → ℕ → ℕ
  | 0 => fun _ => 0
  | i + 1 => lcsRowNext seq1 seq2 (lcsCell seq1 seq2 i) i

/-- longestCommonSubsequence: the bottom-right entry of the table. -/
def longestCommonSubsequence (seq1 seq2 : List String) : ℕ :=
  lcsCell seq1 seq2 seq1.length seq2.length

/-- calculateLongestCommonSubsequenceScore from the source. -/
def calculateLongestCommonSubsequenceScore (userSequence correctSequence : List String) : ℚ :=
  (longestCommonSubsequence userSequence correctSequence : ℚ) / (correctSequence.length : ℚ)

/-- The string key the source builds for an adjacent pair with a template
literal joining the two ids with a hyphen. -/
def pairKey (a b : String) : String :=
  a ++ "-" ++ b

/-- calculateAdjacentPairsScore from the source: the correct sequence's
adjacent pairs are encoded as hyphen-joined strings collected in a set, and
the user sequence's adjacent pairs matching a key are counted. -/
def calculateAdjacentPairsScore (userSequence correctSequence : List String) : ℚ :=
  if correctSequence.length < 2 then 0
  else
    let correctPairs := (correctSequence.zip correctSequence.tail).map fun p => pairKey p.1 p.2
    let matchingPairs :=
      (userSequence.zip userSequence.tail).countP fun p => correctPairs.contains (pairKey p.1 p.2)
    (matchingPairs : ℚ) / ((correctSequence.length - 1 : ℕ) : ℚ)

/-- calculatePartialCredit from the source: the best of the three scoring
approaches. -/
def calculateCredit (userSequence correctSequence : List String) : ℚ :=
  max (max (calculatePositionalScore userSequence correctSequence)
        (calculateLongestCommonSubsequenceScore userSequence correctSequence))
    (calculateAdjacentPairsScore userSequence correctSequence)

/-- Grade a sequence question answer. -/
def gradeSequenceQuestion (userAnswer : Json) (correctSequence : List String)
    (allowCredit : Bool) : SequenceGradingResult :=
  match seqAnswerParse userAnswer with
  | none =>
    { isCorrect := false, score := 0, feedback := "Invalid answer format"
      creditAwarded := none, correctSequence := correctSequence, userSequence := [] }
  | some userSequence =>
    match checkSequenceItems userSequence correctSequence with
    | some err =>
      { isCorrect := false, score := 0, feedback := err
        creditAwarded := none, correctSequence := correctSequence, userSequence := [] }
    | none =>
      if arraysEqual userSequence correctSequence then
        { isCorrect := true, score := 1
          feedback := "Perfect! You got the sequence exactly right."
          creditAwarded := none, correctSequence := correctSequence
          userSequence := userSequence }
      else if allowCredit then
        let creditScore := calculateCredit userSequence correctSequence
        if creditScore > 0 then
          { isCorrect := false, score := creditScore
            feedback := "Partially correct. You got " ++ toString (jsRound (creditScore * 100)) ++
              "% of the sequence right."
            creditAwarded := some creditScore
            correctSequence := correctSequence, userSequence := userSequence }
        else
          { isCorrect := false, score := 0
            feedback := "Incorrect sequence. Try to think about the logical order of events or steps."
            creditAwarded := none, correctSequence := correctSequence
            userSequence := userSequence }
      else
        { isCorrect := false, score := 0
          feedback := "Incorrect sequence. Try to think about the logical order of events or steps."
          creditAwarded := none, correctSequence := correctSequence
          userSequence := userSequence }

/-- Convenience constructor for a well-shaped sequence answer payload. -/
def mkSequenceAnswer (seq : List String) : Json :=
  Json.obj [("questionId", Json.str "q"), ("type", Json.str "SEQUENCE"),
    ("sequence", Json.arr (seq.map Json.str))]

/-! ## Dropdown grader (dropdownGrader.ts;
validation from validation/dropdownQuestion.ts) -/

structure DropdownOptionData where
  text : String
  isCorrect : Bool
  orderIndex : ℕ
deriving DecidableEq

structure DropdownQuestionData where
  text : String
  options : List DropdownOptionData
  placeholder : Option String
  allowSearch : Option Bool
  showOptionNumbers : Option Bool
deriving DecidableEq

structure GradingDetails where
  answerType : String
  matchType : String
  caseSensitive : Bool
deriving DecidableEq

structure DropdownGradingResult where
  score : ℚ
  maxScore : ℚ
  isCorrect : Bool
  feedback : String
  selectedOption : String
  correctOption : String
  creditAwarded : Bool
  gradingDetails : GradingDetails
deriving DecidableEq

/-- The optional grading options record, whose three fields default to false,
false and 1 when absent. -/
structure DropdownGradeOpts where
  caseSensitive : Option Bool
  allowCredit : Option Bool
  maxScore : Option ℚ

/-- validateDropdownAnswer: the answer must be a truthy object (in JavaScript
an array also passes the typeof check and then fails the tag comparison), its
type field must equal DROPDOWN, and selectedOption must be a non-empty string
that is non-empty after trimming. Returns some error string when invalid. -/
def validateDropdownAnswer (answer : Json) : Option String :=
  match answer with
  | .obj fields =>
    match fields.lookup "type" with
    | some (.str t) =>
      if t = "DROPDOWN" then
        match fields.lookup "selectedOption" with
        | some (.str s) =>
          if s = "" then some "Selected option is required and must be a string"
          else if jsTrim s = "" then some "Please select a valid option"
          else none
        | _ => some "Selected option is required and must be a string"
      else some "Answer type must be DROPDOWN"
    | _ => some "Answer type must be DROPDOWN"
  | .arr _ => some "Answer type must be DROPDOWN"
  | _ => some "Answer must be an object"

/-- The selectedOption string of a dropdown answer payload. -/
def dropdownSelected (answer : Json) : Option String :=
  match answer with
  | .obj fields =>
    match fields.lookup "selectedOption" with
    | some (.str s) => some s
    | _ => none
  | _ => none

/-- getCorrectOption: the text of the first option flagged correct, or the
empty string when none is. -/
def getCorrectOption (question : DropdownQuestionData) : String :=
  match question.options.find? (fun opt => opt.isCorrect) with
  | some opt => opt.text
  | none => ""

/-- One step of the Levenshtein matrix of calculateStringSimilarity: given
row j (as a function of the column index into str1), build row j + 1 column
by column, as the source's inner loop does, taking the minimum of deletion,
insertion and substitution. -/
def levRowNext (s1 s2 : List Char) (prev : ℕ → ℕ) (j : ℕ) : ℕ → ℕ
  | 0 => j + 1
  | i + 1 =>
    let indicator := if s1.getD i ' ' = s2.getD j ' ' then 0 else 1
    min (levRowNext s1 s2 prev j i + 1) (min (prev (i + 1) + 1) (prev i + indicator))

/-- Row j of the Levenshtein matrix: levCell s1 s2 j i is the matrix entry
matrix j i, the edit distance between the first i characters of s1 and the
first j characters of s2. Row 0 is the identity and each following row comes
from levRowNext, as in the source's nested loops. -/
def levCell (s1 s2 : List Char) : ℕ → ℕ → ℕ
  | 0 => fun i => i
  | j + 1 => levRowNext s1 s2 (levCell s1 s2 j) j

/-- The edit distance the source reads off at matrix s2.length s1.length. -/
def levDistance (s1 s2 : List Char) : ℕ :=
  levCell s1 s2 s2.length s1.length

/-- calculateStringSimilarity: optional case folding, two early returns, then
the normalised Levenshtein similarity. -/
def calculateStringSimilarity (str1 str2 : String) (caseSensitive : Bool) : ℚ :=
  let s1 := if caseSensitive then str1 else jsToLower str1
  let s2 := if caseSensitive then str2 else jsToLower str2
  if s1 = s2 then 1
  else if s1.length = 0 ∨ s2.length = 0 then 0
  else
    let maxLength := max s1.length s2.length
    ((maxLength - levDistance s1.data s2.data : ℕ) : ℚ) / (maxLength : ℚ)

/-- generateFeedback from the source, keyed by the outcome kind string. -/
def generateDropdownFeedback (kind : String) (selectedOption correctOption : String)
    (question : DropdownQuestionData) (similarity : Option ℚ) : String :=
  if kind = "correct" then
    "Excellent! You correctly selected \"" ++ selectedOption ++
      "\". This demonstrates good understanding of the concept."
  else if kind = "partial" then
    let percentage := match similarity with
      | some sim => jsRound (sim * 100)
      | none => 0
    "Your selection \"" ++ selectedOption ++ "\" is close to the correct answer \"" ++
      correctOption ++ "\" (" ++ toString percentage ++ "% match). Review the options more carefully."
  else if kind = "incorrect" then
    let encouragement :=
      if question.options.length > 5 then
        "With many options available, take time to read each one carefully."
      else "Consider reviewing the question and available options."
    "Your selection \"" ++ selectedOption ++ "\" is not correct. The correct answer is \"" ++
      correctOption ++ "\". " ++ encouragement
  else "Unable to process your answer. Please try again."

/-- Grade a dropdown question answer. -/
def gradeDropdownQuestion (question : DropdownQuestionData) (answer : Json)
    (opts : DropdownGradeOpts) : DropdownGradingResult :=
  let caseSensitive := opts.caseSensitive.getD false
  let allowCredit := opts.allowCredit.getD false
  let maxScore := opts.maxScore.getD 1
  match validateDropdownAnswer answer with
  | some err =>
    { score := 0, maxScore := maxScore, isCorrect := false
      feedback := "Invalid answer format: " ++ err
      selectedOption := "", correctOption := getCorrectOption question
      creditAwarded := false
      gradingDetails := ⟨"incorrect", "none", caseSensitive⟩ }
  | none =>
    let selectedOption := jsTrim ((dropdownSelected answer).getD "")
    let correctOption := getCorrectOption question
    let isExactMatch : Bool :=
      if caseSensitive then selectedOption == correctOption
      else jsToLower selectedOption == jsToLower correctOption
    if isExactMatch then
      { score := maxScore, maxScore := maxScore, isCorrect := true
        feedback := generateDropdownFeedback "correct" selectedOption correctOption question none
        selectedOption := selectedOption, correctOption := correctOption
        creditAwarded := false
        gradingDetails := ⟨"correct", "exact", caseSensitive⟩ }
    else if allowCredit then
      let similarity := calculateStringSimilarity selectedOption correctOption caseSensitive
      if similarity > 8/10 then
        let creditScore := (jsRound (maxScore * similarity * 100) : ℚ) / 100
        { score := creditScore, maxScore := maxScore, isCorrect := false
          feedback :=
            generateDropdownFeedback "partial" selectedOption correctOption question (some similarity)
          selectedOption := selectedOption, correctOption := correctOption
          creditAwarded := true
          gradingDetails := ⟨"incorrect", "none", caseSensitive⟩ }
      else
        { score := 0, maxScore := maxScore, isCorrect := false
          feedback := generateDropdownFeedback "incorrect" selectedOption correctOption question none
          selectedOption := selectedOption, correctOption := correctOption
          creditAwarded := false
          gradingDetails := ⟨"incorrect", "none", caseSensitive⟩ }
    else
      { score := 0, maxScore := maxScore, isCorrect := false
        feedback := generateDropdownFeedback "incorrect" selectedOption correctOption question none
        selectedOption := selectedOption, correctOption := correctOption
        creditAwarded := false
        gradingDetails := ⟨"incorrect", "none", caseSensitive⟩ }

/-- Convenience constructor for a well-shaped dropdown answer payload. -/
def mkDropdownAnswer (s : String) : Json :=
  Json.obj [("type", Json.str "DROPDOWN"), ("selectedOption", Json.str s)]

/-- A one-question fixture with Paris as its correct option. -/
def parisQuestion : DropdownQuestionData :=
  ⟨"Capital of France?",
    [⟨"Paris", true, 0⟩, ⟨"London", false, 1⟩], none, none, none⟩

/-! ## Spec-side definitions for claim C1 -/

/-- Spec reading of the positional sub-score: the fraction of indices of the
correct sequence at which the user's item equals the correct item. -/
def specPositionalScore (userSequence correctSequence : List String) : ℚ :=
  (((List.range correctSequence.length).countP
      fun i => userSequence.getD i "" == correctSequence.getD i "") : ℚ) /
    (correctSequence.length : ℚ)

/-- Spec reading of the adjacency sub-score: the number of consecutive pairs
of the correct sequence occurring as consecutive pairs of the user sequence,
divided by one less than the correct length, and 0 when the correct length
is below 2. -/
def specAdjacencyScore (userSequence correctSequence : List String) : ℚ :=
  if correctSequence.length < 2 then 0
  else
    (((correctSequence.zip correctSequence.tail).countP
        fun p => decide (p ∈ userSequence.zip userSequence.tail)) : ℚ) /
      ((correctSequence.length - 1 : ℕ) : ℚ)

/-- Spec reading of the best-of-three partial score (the LCS sub-score reads
identically in spec and source). -/
def specSequenceBestScore (userSequence correctSequence : List String) : ℚ :=
  max (max (specPositionalScore userSequence correctSequence)
        (calculateLongestCommonSubsequenceScore userSequence correctSequence))
    (specAdjacencyScore userSequence correctSequence)

/-- Spec reading of a longest common subsequence length: n is the length of
a common subsequence of u and v, and no common subsequence is longer. -/
def IsMaxLcsLen (u v : List String) (n : ℕ) : Prop :=
  (∃ t : List String, List.Sublist t u ∧ List.Sublist t v ∧ t.length = n) ∧
  ∀ t : List String, List.Sublist t u → List.Sublist t v → t.length ≤ n

theorem lcsCell_zero (seq1 seq2 : List String) (j : ℕ) : lcsCell seq1 seq2 0 j = 0 := rfl

theorem lcsCell_succ_zero (seq1 seq2 : List String) (i : ℕ) :
    lcsCell seq1 seq2 (i + 1) 0 = 0 := rfl

theorem lcsCell_succ_succ (seq1 seq2 : List String) (i j : ℕ) :
    lcsCell seq1 seq2 (i + 1) (j + 1) =
      if seq1.getD i "" = seq2.getD j "" then lcsCell seq1 seq2 i j + 1
      else max (lcsCell seq1 seq2 i (j + 1)) (lcsCell seq1 seq2 (i + 1) j) := rfl

theorem levCell_zero (s1 s2 : List Char) (i : ℕ) : levCell s1 s2 0 i = i := rfl

theorem levCell_succ_zero (s1 s2 : List Char) (j : ℕ) : levCell s1 s2 (j + 1) 0 = j + 1 := rfl

theorem levCell_succ_succ (s1 s2 : List Char) (j i : ℕ) :
    levCell s1 s2 (j + 1) (i + 1) =
      min (levCell s1 s2 (j + 1) i + 1)
        (min (levCell s1 s2 j (i + 1) + 1)
          (levCell s1 s2 j i + if s1.getD i ' ' = s2.getD j ' ' then 0 else 1)) := rfl

/-! ## Generic helper lemmas -/

theorem string_beq_eq_decide (a b : String) : (a == b) = decide (a = b) := by
  by_cases h : a = b <;> simp [h]

theorem not_in_range_iff (r rmin rmax : ℚ) (h1 : rmin ≤ r) (h2 : r ≤ rmax) :
    ¬(r < rmin ∨ r > rmax) := by
  push_neg
  exact ⟨h1, h2⟩

/-! ## Claim C2: numeric grading is an inclusive tolerance window with a
binary score -/

/-- C2: for every answer and numeric question with nonnegative tolerance,
isCorrect holds exactly when the absolute difference from the correct answer
is at most the tolerance (inclusive boundary), and the score is 1 when
correct and 0 otherwise. -/
theorem numeric_isCorrect_iff_within_tolerance (a : ℚ) (q : NumericQuestion)
    (_htol : 0 ≤ q.tolerance) :
    ((gradeNumericQuestion a q).isCorrect = true ↔ |a - q.correctAnswer| ≤ q.tolerance) ∧
    ((gradeNumericQuestion a q).isCorrect = true → (gradeNumericQuestion a q).score = 1) ∧
    ((gradeNumericQuestion a q).isCorrect = false → (gradeNumericQuestion a q).score = 0) := by
  refine ⟨by simp [gradeNumericQuestion], ?_, ?_⟩ <;>
    · intro h
      simp only [gradeNumericQuestion] at h ⊢
      simp [h]

/-- Witness for C2 at the spec's example: answer 9.6 against correct answer
9.8 with tolerance 0.2 is correct with score 1, and answer 9.59 is incorrect
with score 0. -/
theorem numeric_isCorrect_iff_within_tolerance_witness :
    (gradeNumericQuestion (96/10) ⟨"q1", 98/10, 2/10, 1, none⟩).isCorrect = true ∧
    (gradeNumericQuestion (96/10) ⟨"q1", 98/10, 2/10, 1, none⟩).score = 1 ∧
    (gradeNumericQuestion (959/100) ⟨"q1", 98/10, 2/10, 1, none⟩).score = 0 := by
  have h1 := numeric_isCorrect_iff_within_tolerance (96/10) ⟨"q1", 98/10, 2/10, 1, none⟩ (by decide)
  have h2 := numeric_isCorrect_iff_within_tolerance (959/100) ⟨"q1", 98/10, 2/10, 1, none⟩ (by decide)
  have hc : (gradeNumericQuestion (96/10) ⟨"q1", 98/10, 2/10, 1, none⟩).isCorrect = true :=
    h1.1.mpr (by decide)
  refine ⟨hc, h1.2.1 hc, h2.2.2 ?_⟩
  by_contra hne
  have := h2.1.mp (Bool.of_not_eq_false hne)
  revert this
  decide

/-! ## Claim C6: subjective rating grading accepts every valid rating -/

/-- C6: a validated rating answer graded in subjective mode is correct with
score 1 whatever the rating, and objective mode without an expected rating
falls back to the same behaviour. -/
theorem rating_subjective_always_correct (j : Json) (rmin rmax r : ℚ) (rtype : String)
    (e : Option ℚ) (tol : Option ℚ) (hp : ratingAnswerParse j = some r)
    (h1 : rmin ≤ r) (h2 : r ≤ rmax) :
    ((gradeRatingQuestion j rmin rmax rtype e tol true).isCorrect = true ∧
     (gradeRatingQuestion j rmin rmax rtype e tol true).score = 1) ∧
    ((gradeRatingQuestion j rmin rmax rtype none tol false).isCorrect = true ∧
     (gradeRatingQuestion j rmin rmax rtype none tol false).score = 1) := by
  have hrange := not_in_range_iff r rmin rmax h1 h2
  refine ⟨⟨?_, ?_⟩, ⟨?_, ?_⟩⟩ <;> simp [gradeRatingQuestion, hp, hrange]

/-- Witness for C6: the minimal in-range rating 1 on a 1 to 5 scale is
correct with score 1 in subjective mode and in expectation-free objective
mode. -/
theorem rating_subjective_always_correct_witness :
    ((gradeRatingQuestion (mkRatingAnswer 1) 1 5 "stars" none none true).isCorrect = true ∧
     (gradeRatingQuestion (mkRatingAnswer 1) 1 5 "stars" none none true).score = 1) ∧
    ((gradeRatingQuestion (mkRatingAnswer 1) 1 5 "stars" none none false).isCorrect = true ∧
     (gradeRatingQuestion (mkRatingAnswer 1) 1 5 "stars" none none false).score = 1) :=
  rating_subjective_always_correct (mkRatingAnswer 1) 1 5 1 "stars" none none
    (by decide) (by decide) (by decide)

/-! ## Claim C5: objective rating grading is a tolerance window with
distance-based credit -/

/-- C5: a validated rating graded in objective mode is correct with score 1
exactly when the rating is within tolerance (defaulting to 0) of the
expected rating; otherwise it is incorrect and scored
max 0 (1 - actualDistance / maxPossibleDistance), the maximal possible
distance being measured to the far end of the scale. The scale is
nondegenerate (ratingMin < ratingMax per the question invariant), which makes
that denominator positive. The spec's example on the 1 to 5 scale with
expected rating 4 and tolerance 1 behaves as claimed. -/
theorem rating_objective_tolerance_window (j : Json) (rmin rmax r e : ℚ) (rtype : String)
    (tol : Option ℚ) (hp : ratingAnswerParse j = some r)
    (h1 : rmin ≤ r) (h2 : r ≤ rmax) (hlt : rmin < rmax) :
    (((gradeRatingQuestion j rmin rmax rtype (some e) tol false).isCorrect = true)
        ↔ |r - e| ≤ tol.getD 0) ∧
    (|r - e| ≤ tol.getD 0 →
      (gradeRatingQuestion j rmin rmax rtype (some e) tol false).score = 1) ∧
    (¬ |r - e| ≤ tol.getD 0 →
      (gradeRatingQuestion j rmin rmax rtype (some e) tol false).isCorrect = false ∧
      (gradeRatingQuestion j rmin rmax rtype (some e) tol false).score =
        max 0 (1 - |r - e| / max |rmax - e| |rmin - e|)) ∧
    0 < max |rmax - e| |rmin - e| ∧
    ((gradeRatingQuestion (mkRatingAnswer 3) 1 5 "stars" (some 4) (some 1) false).isCorrect
        = true) ∧
    ((gradeRatingQuestion (mkRatingAnswer 5) 1 5 "stars" (some 4) (some 1) false).isCorrect
        = true) ∧
    ((gradeRatingQuestion (mkRatingAnswer 1) 1 5 "stars" (some 4) (some 1) false).isCorrect
        = false) ∧
    (gradeRatingQuestion (mkRatingAnswer 1) 1 5 "stars" (some 4) (some 1) false).score = 0 := by
  have hrange := not_in_range_iff r rmin rmax h1 h2
  have hpos : 0 < max |rmax - e| |rmin - e| := by
    rcases lt_trichotomy e rmin with hc | hc | hc
    · exact lt_max_of_lt_left (by rw [abs_pos]; intro h0; nlinarith)
    · exact lt_max_of_lt_left (by rw [abs_pos]; intro h0; nlinarith)
    · exact lt_max_of_lt_right (by rw [abs_pos]; intro h0; nlinarith)
  by_cases ht : |r - e| ≤ tol.getD 0
  · refine ⟨?_, ?_, ?_, hpos, by decide, by decide, by decide, by decide⟩ <;>
      simp [gradeRatingQuestion, hp, hrange, ht]
  · refine ⟨?_, ?_, ?_, hpos, by decide, by decide, by decide, by decide⟩ <;>
      simp [gradeRatingQuestion, hp, hrange, ht]

/-- Witness for C5: rating 3 against expected 4 with tolerance 1 on the 1 to
5 scale is correct with score 1. -/
theorem rating_objective_tolerance_window_witness :
    (gradeRatingQuestion (mkRatingAnswer 3) 1 5 "stars" (some 4) (some 1) false).score = 1 := by
  have h := rating_objective_tolerance_window (mkRatingAnswer 3) 1 5 3 4 "stars" (some 1)
    (by decide) (by decide) (by decide) (by decide)
  exact h.2.1 (by decide)

/-! ## Claim C7: sequence answers failing the id checks are rejected before
any scoring -/

/-- C7: a parsed sequence answer whose length differs from the correct
sequence's, or whose id set differs from the correct id set (duplicated,
missing or foreign ids), makes gradeSequenceQuestion return the zero-score
result carrying the specific validation error as feedback and an empty echoed
user sequence, bypassing every scoring heuristic. -/
theorem sequence_invalid_ids_fail_closed (j : Json) (correctSequence u : List String)
    (ac : Bool) (hp : seqAnswerParse j = some u)
    (hbad : u.length ≠ correctSequence.length ∨ u.toFinset ≠ correctSequence.toFinset) :
    ∃ err, checkSequenceItems u correctSequence = some err ∧
      gradeSequenceQuestion j correctSequence ac =
        ⟨false, 0, err, none, correctSequence, []⟩ := by
  have hcheck : ∃ err, checkSequenceItems u correctSequence = some err := by
    by_cases hlen : u.length = correctSequence.length
    · rcases hbad with hbad | hbad
      · exact absurd hlen hbad
      · by_cases hcard : correctSequence.toFinset.card = u.toFinset.card
        · have hmem : ∃ x ∈ u, x ∉ correctSequence.toFinset := by
            by_contra hall
            push_neg at hall
            have hsub : u.toFinset ⊆ correctSequence.toFinset := by
              intro x hx
              exact hall x (List.mem_toFinset.mp hx)
            exact hbad (Finset.eq_of_subset_of_card_le hsub (le_of_eq hcard))
          refine ⟨"Answer contains invalid items", ?_⟩
          have hany : u.any (fun item => decide (item ∉ correctSequence.toFinset)) = true := by
            rcases hmem with ⟨x, hx, hnx⟩
            simp only [List.any_eq_true]
            exact ⟨x, hx, by simpa [List.mem_toFinset] using hnx⟩
          unfold checkSequenceItems
          rw [if_neg (by simp [hlen]), if_neg (by simp [hcard]), if_pos hany]

        · exact ⟨"Answer contains duplicate or missing items",
            by simp [checkSequenceItems, hlen, hcard]⟩
    · exact ⟨"Answer must contain exactly " ++ toString correctSequence.length ++ " items",
        by simp [checkSequenceItems, hlen]⟩
  rcases hcheck with ⟨err, herr⟩
  exact ⟨err, herr, by simp [gradeSequenceQuestion, hp, herr]⟩

/-- Witness for C7: the answer ["a", "a"] against correct sequence
["a", "b"] contains a duplicated id and is rejected with a zero score. -/
theorem sequence_invalid_ids_fail_closed_witness :
    ∃ err, checkSequenceItems ["a", "a"] ["a", "b"] = some err ∧
      gradeSequenceQuestion (mkSequenceAnswer ["a", "a"]) ["a", "b"] true =
        ⟨false, 0, err, none, ["a", "b"], []⟩ :=
  sequence_invalid_ids_fail_closed (mkSequenceAnswer ["a", "a"]) ["a", "b"] ["a", "a"] true
    (by decide) (by decide)

/-! ## Claim C8: graders are total and fail closed on malformed input -/

/-- C8: the graders are total Lean functions (the embedded code has no
throwing path), and on any payload rejected by the matching validator each
grader returns the complete zero-score result whose feedback carries the
validator's error message; a dropdown question with no option flagged correct
yields the empty string as correct-option text instead of crashing. -/
theorem graders_fail_closed :
    (∀ (j : Json) (rmin rmax : ℚ) (rtype : String) (e tol : Option ℚ) (subj : Bool)
        (err : String), validateRatingAnswer j rmin rmax = some err →
      gradeRatingQuestion j rmin rmax rtype e tol subj =
        ⟨false, 0, err, 0, e, rtype, ⟨rmin, rmax⟩⟩) ∧
    (∀ (j : Json) (correctSequence : List String) (ac : Bool) (err : String),
        validateSequenceAnswer j correctSequence = some err →
      gradeSequenceQuestion j correctSequence ac =
        ⟨false, 0, err, none, correctSequence, []⟩) ∧
    (∀ (q : DropdownQuestionData) (j : Json) (opts : DropdownGradeOpts) (err : String),
        validateDropdownAnswer j = some err →
      gradeDropdownQuestion q j opts =
        ⟨0, opts.maxScore.getD 1, false, "Invalid answer format: " ++ err, "",
          getCorrectOption q, false, ⟨"incorrect", "none", opts.caseSensitive.getD false⟩⟩) ∧
    (∀ q : DropdownQuestionData, (∀ opt ∈ q.options, opt.isCorrect = false) →
      getCorrectOption q = "") := by
  refine ⟨?_, ?_, ?_, ?_⟩
  · intro j rmin rmax rtype e tol subj err hv
    cases hp : ratingAnswerParse j with
    | none =>
      simp only [validateRatingAnswer, hp, Option.some.injEq] at hv
      simp [gradeRatingQuestion, hp, ← hv]
    | some r =>
      simp only [validateRatingAnswer, hp] at hv
      by_cases hrange : r < rmin ∨ r > rmax
      · rw [if_pos hrange] at hv
        simp only [Option.some.injEq] at hv
        simp [gradeRatingQuestion, hp, hrange, ← hv]
      · rw [if_neg hrange] at hv
        exact absurd hv (by simp)
  · intro j correctSequence ac err hv
    cases hp : seqAnswerParse j with
    | none =>
      simp only [validateSequenceAnswer, hp, Option.some.injEq] at hv
      simp [gradeSequenceQuestion, hp, ← hv]
    | some seq =>
      simp only [validateSequenceAnswer, hp] at hv
      simp [gradeSequenceQuestion, hp, hv]
  · intro q j opts err hv
    simp [gradeDropdownQuestion, hv]
  · intro q hall
    unfold getCorrectOption
    have : q.options.find? (fun opt => opt.isCorrect) = none := by
      rw [List.find?_eq_none]
      intro x hx
      simp [hall x hx]
    rw [this]

/-- Witness for C8: a null rating payload, a sequence payload with a foreign
id, and a numeric dropdown payload are each rejected with the complete
zero-score result, and a question whose options carry no correct flag yields
the empty correct-option text. -/
theorem graders_fail_closed_witness :
    gradeRatingQuestion Json.null 1 5 "stars" none none true =
      ⟨false, 0, "Invalid rating format", 0, none, "stars", ⟨1, 5⟩⟩ ∧
    gradeSequenceQuestion (mkSequenceAnswer ["z", "b"]) ["a", "b"] true =
      ⟨false, 0, "Answer contains invalid items", none, ["a", "b"], []⟩ ∧
    gradeDropdownQuestion parisQuestion (Json.num 3) ⟨none, none, none⟩ =
      ⟨0, 1, false, "Invalid answer format: Answer must be an object", "",
        "Paris", false, ⟨"incorrect", "none", false⟩⟩ ∧
    getCorrectOption ⟨"q", [⟨"A", false, 0⟩, ⟨"B", false, 1⟩], none, none, none⟩ = "" := by
  have h := graders_fail_closed
  refine ⟨h.1 Json.null 1 5 "stars" none none true _ (by decide),
    h.2.1 (mkSequenceAnswer ["z", "b"]) ["a", "b"] true _ (by decide),
    h.2.2.1 parisQuestion (Json.num 3) ⟨none, none, none⟩ _ (by decide),
    h.2.2.2 _ (by decide)⟩

/-! ## Claim C4: dropdown exact matching is case-insensitive by default and
raw-string based when caseSensitive -/

/-- C4: against a question whose correct option text is Paris, the answer
paris is an exact match under the default options, earning the full default
maxScore of 1 with matchType exact; with caseSensitive enabled the same
answer is graded incorrect, because the exact-match check compares the raw
strings. -/
theorem dropdown_paris_case_sensitivity (q : DropdownQuestionData)
    (hq : getCorrectOption q = "Paris") :
    ((gradeDropdownQuestion q (mkDropdownAnswer "paris") ⟨none, none, none⟩).isCorrect = true ∧
     (gradeDropdownQuestion q (mkDropdownAnswer "paris") ⟨none, none, none⟩).score = 1 ∧
     (gradeDropdownQuestion q (mkDropdownAnswer "paris")
        ⟨none, none, none⟩).gradingDetails.matchType = "exact") ∧
    (gradeDropdownQuestion q (mkDropdownAnswer "paris") ⟨some true, none, none⟩).isCorrect
      = false := by
  have hv : validateDropdownAnswer (mkDropdownAnswer "paris") = none := by decide
  have hs : dropdownSelected (mkDropdownAnswer "paris") = some "paris" := rfl
  have hmatch : (jsToLower (jsTrim "paris") == jsToLower "Paris") = true := by decide
  have hmatch2 : (jsTrim "paris" == "Paris") = false := by decide
  refine ⟨?_, ?_⟩ <;>
    simp [gradeDropdownQuestion, hv, hs, hq, hmatch, hmatch2]

/-- Witness for C4 on a concrete two-option question whose correct option is
Paris. -/
theorem dropdown_paris_case_sensitivity_witness :
    (gradeDropdownQuestion parisQuestion (mkDropdownAnswer "paris")
        ⟨none, none, none⟩).isCorrect = true ∧
    (gradeDropdownQuestion parisQuestion (mkDropdownAnswer "paris")
        ⟨some true, none, none⟩).isCorrect = false :=
  ⟨((dropdown_paris_case_sensitivity parisQuestion (by decide)).1).1,
    (dropdown_paris_case_sensitivity parisQuestion (by decide)).2⟩

/-! ## Claim C10: the selected option is trimmed before comparison, the
correct option's text is not -/

/-- C10: the grader trims the answer's selectedOption before the exact-match
comparison, so a validated answer equal to the correct text up to surrounding
whitespace and (by default) letter case is exactly correct with full maxScore,
and the echoed selectedOption is the trimmed string; the correct option's own
text is not trimmed, as the closing concrete case with correct text
bearing a leading space shows. -/
theorem dropdown_trims_selected (q : DropdownQuestionData) (j : Json) (s : String)
    (ac : Option Bool) (m : ℚ)
    (hsel : dropdownSelected j = some s)
    (hv : validateDropdownAnswer j = none)
    (heq : jsToLower (jsTrim s) = jsToLower (getCorrectOption q)) :
    ((gradeDropdownQuestion q j ⟨none, ac, some m⟩).isCorrect = true ∧
     (gradeDropdownQuestion q j ⟨none, ac, some m⟩).score = m ∧
     (gradeDropdownQuestion q j ⟨none, ac, some m⟩).selectedOption = jsTrim s) ∧
    (gradeDropdownQuestion ⟨"q", [⟨" Paris", true, 0⟩], none, none, none⟩
        (mkDropdownAnswer "Paris") ⟨none, none, none⟩).isCorrect = false := by
  have hb : (jsToLower (jsTrim s) == jsToLower (getCorrectOption q)) = true := by
    simp [heq]
  refine ⟨?_, by decide⟩
  simp [gradeDropdownQuestion, hv, hsel, hb]

/-- Witness for C10: the answer with two spaces around PARIS matches the
correct text Paris after trimming and case folding, scoring the full
maxScore 2 with the trimmed echo. -/
theorem dropdown_trims_selected_witness :
    (gradeDropdownQuestion parisQuestion (mkDropdownAnswer "  PARIS  ")
        ⟨none, none, some 2⟩).isCorrect = true ∧
    (gradeDropdownQuestion parisQuestion (mkDropdownAnswer "  PARIS  ")
        ⟨none, none, some 2⟩).score = 2 ∧
    (gradeDropdownQuestion parisQuestion (mkDropdownAnswer "  PARIS  ")
        ⟨none, none, some 2⟩).selectedOption = jsTrim "  PARIS  " :=
  (dropdown_trims_selected parisQuestion (mkDropdownAnswer "  PARIS  ") "  PARIS  "
    none 2 rfl (by decide) (by decide)).1

/-! ## Claim C9: rating statistics -/

/-- C9: on the empty list the statistics are all zero and empty; on a
non-empty list the average is the arithmetic mean rounded to two decimals,
the distribution counts every value's occurrences, the mode is exactly the
set of values of maximal count, and the median applies the standard even/odd
rule to a sorted permutation of the input. -/
theorem rating_statistics_spec :
    calculateRatingStatistics ([] : List ℚ) =
      ⟨0, 0, ∅, fun _ => 0, 0⟩ ∧
    ∀ l : List ℚ, l ≠ [] →
      (calculateRatingStatistics l).total = l.length ∧
      (calculateRatingStatistics l).average = (jsRound (l.sum / l.length * 100) : ℚ) / 100 ∧
      (∀ v, (calculateRatingStatistics l).distribution v = l.count v) ∧
      (∀ v, v ∈ (calculateRatingStatistics l).mode ↔
        v ∈ l ∧ ∀ w ∈ l, l.count w ≤ l.count v) ∧
      (List.insertionSort (· ≤ ·) l).Sorted (· ≤ ·) ∧
      (List.insertionSort (· ≤ ·) l).Perm l ∧
      (calculateRatingStatistics l).median =
        (if l.length % 2 = 0 then
          ((List.insertionSort (· ≤ ·) l).getD (l.length / 2 - 1) 0 +
            (List.insertionSort (· ≤ ·) l).getD (l.length / 2) 0) / 2
        else (List.insertionSort (· ≤ ·) l).getD (l.length / 2) 0) := by
  constructor
  · rfl
  · intro l hl
    have hlen : ¬ l.length = 0 := by simpa [List.length_eq_zero] using hl
    refine ⟨by simp [calculateRatingStatistics, hlen], ?_, ?_, ?_, ?_, ?_, ?_⟩
    · simp only [calculateRatingStatistics, hlen, if_false, ite_false]
      rw [List.sum_eq_foldl]
    · intro v
      simp [calculateRatingStatistics, hlen]
    · intro v
      simp only [calculateRatingStatistics, hlen, if_false, ite_false, Finset.mem_filter,
        List.mem_toFinset]
      constructor
      · rintro ⟨hv, hmax⟩
        refine ⟨hv, fun w hw => ?_⟩
        rw [hmax]
        have hle : l.count w ≤ l.toFinset.sup fun rating => l.count rating :=
          @Finset.le_sup ℕ ℚ _ _ l.toFinset (fun rating => l.count rating) w
            (List.mem_toFinset.mpr hw)
        exact hle
      · rintro ⟨hv, hall⟩
        have hle : l.count v ≤ l.toFinset.sup fun rating => l.count rating :=
          @Finset.le_sup ℕ ℚ _ _ l.toFinset (fun rating => l.count rating) v
            (List.mem_toFinset.mpr hv)
        have hge : (l.toFinset.sup fun rating => l.count rating) ≤ l.count v :=
          Finset.sup_le fun w hw => hall w (List.mem_toFinset.mp hw)
        exact ⟨hv, le_antisymm hle hge⟩
    · exact List.sorted_insertionSort _ l
    · exact List.perm_insertionSort _ l
    · simp [calculateRatingStatistics, hlen]

/-- Witness for C9 on the list [1, 2, 2]: three responses, mean 5/3 rounded
to 1.67, two occurrences of the value 2, mode containing 2, and median 2. -/
theorem rating_statistics_spec_witness :
    (calculateRatingStatistics [1, 2, 2]).total = 3 ∧
    (calculateRatingStatistics [1, 2, 2]).average = 167/100 ∧
    (calculateRatingStatistics [1, 2, 2]).distribution 2 = 2 ∧
    2 ∈ (calculateRatingStatistics [1, 2, 2]).mode ∧
    (calculateRatingStatistics [1, 2, 2]).median = 2 := by
  have h := rating_statistics_spec.2 [1, 2, 2] (by decide)
  refine ⟨h.1, ?_, ?_, ?_, ?_⟩
  · rw [h.2.1]; decide
  · rw [h.2.2.1 2]; decide
  · exact (h.2.2.2.1 2).mpr ⟨by decide, by decide⟩
  · rw [h.2.2.2.2.2.2]; decide

theorem sublist_concat_iff {α : Type} {t l : List α} {x : α} :
    t.Sublist (l ++ [x]) ↔ t.Sublist l ∨ ∃ r, t = r ++ [x] ∧ r.Sublist l := by
  rw [← List.reverse_sublist, List.reverse_append]
  simp only [List.reverse_cons, List.reverse_nil, List.nil_append, List.singleton_append]
  rw [List.sublist_cons_iff]
  constructor
  · rintro (h | ⟨r, hr, hsub⟩)
    · exact Or.inl (List.reverse_sublist.mp h)
    · refine Or.inr ⟨r.reverse, ?_, ?_⟩
      · have := congrArg List.reverse hr
        simpa using this
      · rw [← List.reverse_sublist]
        simpa using hsub
  · rintro (h | ⟨r, rfl, hsub⟩)
    · exact Or.inl (List.reverse_sublist.mpr h)
    · refine Or.inr ⟨r.reverse, by simp, ?_⟩
      simpa using List.reverse_sublist.mpr hsub

theorem lcsCell_isMaxLcsLen (u v : List String) :
    ∀ i, i ≤ u.length → ∀ j, j ≤ v.length →
      IsMaxLcsLen (u.take i) (v.take j) (lcsCell u v i j) := by
  intro i
  induction i with
  | zero =>
    intro _ j _
    rw [lcsCell_zero]
    refine ⟨⟨[], List.nil_sublist _, List.nil_sublist _, rfl⟩, fun t ht _ => ?_⟩
    rw [List.take_zero, List.sublist_nil] at ht
    simp [ht]
  | succ i ihi =>
    intro hi j
    induction j with
    | zero =>
      intro _
      rw [lcsCell_succ_zero]
      refine ⟨⟨[], List.nil_sublist _, List.nil_sublist _, rfl⟩, fun t _ ht => ?_⟩
      rw [List.take_zero, List.sublist_nil] at ht
      simp [ht]
    | succ j ihj =>
      intro hj
      have hiu : i < u.length := hi
      have hjv : j < v.length := hj
      have hU : u.take (i + 1) = u.take i ++ [u.getD i ""] := by
        rw [List.take_succ, List.getElem?_eq_getElem hiu, List.getD_eq_getElem u "" hiu]
        rfl
      have hV : v.take (j + 1) = v.take j ++ [v.getD j ""] := by
        rw [List.take_succ, List.getElem?_eq_getElem hjv, List.getD_eq_getElem v "" hjv]
        rfl
      rw [lcsCell_succ_succ]
      by_cases hab : u.getD i "" = v.getD j ""
      · rw [if_pos hab]
        obtain ⟨⟨t0, ht0u, ht0v, ht0len⟩, hbound⟩ := ihi (le_of_lt hiu) j (le_of_lt hjv)
        constructor
        · refine ⟨t0 ++ [u.getD i ""], ?_, ?_, by simp [ht0len]⟩
          · rw [hU]
            exact ht0u.append (List.Sublist.refl _)
          · rw [hV, ← hab]
            exact ht0v.append (List.Sublist.refl _)
        · intro t htu htv
          rw [hU] at htu
          rw [hV] at htv
          rcases sublist_concat_iff.mp htu with htu' | ⟨r, rfl, hru⟩
          · rcases sublist_concat_iff.mp htv with htv' | ⟨r, rfl, hrv⟩
            · exact le_trans (hbound t htu' htv') (Nat.le_succ _)
            · have hrU : r.Sublist (u.take i) :=
                (List.sublist_append_left r [v.getD j ""]).trans htu'
              have := hbound r hrU hrv
              simp only [List.length_append, List.length_cons, List.length_nil]
              omega
          · rcases sublist_concat_iff.mp htv with htv' | ⟨r2, heq, hrv⟩
            · have hrV : r.Sublist (v.take j) :=
                (List.sublist_append_left r [u.getD i ""]).trans htv'
              have := hbound r hru hrV
              simp only [List.length_append, List.length_cons, List.length_nil]
              omega
            · have hinj : r = r2 ∧ u.getD i "" = v.getD j "" :=
                List.concat_inj.mp (by simpa [List.concat_eq_append] using heq)
              rcases hinj with ⟨rfl, -⟩
              have := hbound r hru hrv
              simp only [List.length_append, List.length_cons, List.length_nil]
              omega
      · rw [if_neg hab]
        obtain ⟨⟨t1, h1u, h1v, h1len⟩, hb1⟩ := ihi (le_of_lt hiu) (j + 1) hj
        obtain ⟨⟨t2, h2u, h2v, h2len⟩, hb2⟩ := ihj (le_of_lt hjv)
        constructor
        · rcases max_choice (lcsCell u v i (j + 1)) (lcsCell u v (i + 1) j) with hm | hm
          · refine ⟨t1, ?_, h1v, by rw [hm, ← h1len]⟩
            rw [hU]
            exact h1u.trans (List.sublist_append_left _ _)
          · refine ⟨t2, h2u, ?_, by rw [hm, ← h2len]⟩
            rw [hV]
            exact h2v.trans (List.sublist_append_left _ _)
        · intro t htu htv
          rw [hU] at htu
          rcases sublist_concat_iff.mp htu with htu' | ⟨r, rfl, hru⟩
          · exact le_trans (hb1 t htu' htv) (le_max_left _ _)
          · rw [hV] at htv
            rcases sublist_concat_iff.mp htv with htv' | ⟨r2, heq, hrv⟩
            · have ht2 : (r ++ [u.getD i ""]).Sublist (u.take (i + 1)) := by
                rw [hU]
                exact hru.append (List.Sublist.refl _)
              exact le_trans (hb2 _ ht2 htv') (le_max_right _ _)
            · exact absurd (List.concat_inj.mp
                (by simpa [List.concat_eq_append] using heq)).2 hab

/-- The dynamic-programming longestCommonSubsequence computes the maximal
common-subsequence length of its two arguments. -/
theorem longestCommonSubsequence_spec (u v : List String) :
    IsMaxLcsLen u v (longestCommonSubsequence u v) := by
  have h := lcsCell_isMaxLcsLen u v u.length le_rfl v.length le_rfl
  rwa [List.take_length, List.take_length] at h

/-! ## Claim C1: the sequence partial score is the best of three sub-scores

The spec describes the three sub-scores mathematically; the spec-side
definitions above state them in the spec's words so the implementation can
be compared against them. -/

theorem arraysEqual_iff (a b : List String) : arraysEqual a b = true ↔ a = b := by
  unfold arraysEqual
  simp only [Bool.and_eq_true, decide_eq_true_eq, List.all_eq_true, List.mem_range]
  constructor
  · rintro ⟨hlen, hall⟩
    refine List.ext_getElem hlen fun n h1 h2 => ?_
    have := hall n h1
    rw [string_beq_eq_decide, decide_eq_true_eq] at this
    rwa [List.getD_eq_getElem a "" h1, List.getD_eq_getElem b "" h2] at this
  · rintro rfl
    exact ⟨rfl, fun i _ => by simp⟩

theorem checkSequenceItems_none_iff (u c : List String) :
    checkSequenceItems u c = none ↔
      u.length = c.length ∧ c.toFinset.card = u.toFinset.card ∧ ∀ x ∈ u, x ∈ c := by
  unfold checkSequenceItems
  by_cases h1 : u.length = c.length
  · by_cases h2 : c.toFinset.card = u.toFinset.card
    · by_cases h3 : u.any (fun item => decide (item ∉ c.toFinset)) = true
      · rw [if_neg (by simp [h1]), if_neg (by simp [h2]), if_pos h3]
        simp only [List.any_eq_true, decide_eq_true_eq, List.mem_toFinset] at h3
        rcases h3 with ⟨x, hx, hnx⟩
        simp only [reduceCtorEq, false_iff]
        rintro ⟨-, -, hall⟩
        exact hnx (hall x hx)
      · rw [if_neg (by simp [h1]), if_neg (by simp [h2]), if_neg h3]
        simp only [List.any_eq_true, decide_eq_true_eq, List.mem_toFinset] at h3
        push_neg at h3
        simp only [true_iff, h1, h2, true_and]
        exact h3
    · rw [if_neg (by simp [h1]), if_pos (by simp [h2])]
      simp only [reduceCtorEq, false_iff]
      rintro ⟨-, hc, -⟩
      exact h2 hc
  · rw [if_pos (by simp [h1])]
    simp only [reduceCtorEq, false_iff]
    rintro ⟨hl, -, -⟩
    exact h1 hl

theorem user_facts_of_valid (u c : List String) (h : checkSequenceItems u c = none)
    (hc : c.Nodup) : u.Nodup ∧ u.toFinset = c.toFinset := by
  rcases (checkSequenceItems_none_iff u c).mp h with ⟨hlen, hcard, hmem⟩
  have hsub : u.toFinset ⊆ c.toFinset := by
    intro x hx
    exact List.mem_toFinset.mpr (hmem x (List.mem_toFinset.mp hx))
  have heq : u.toFinset = c.toFinset :=
    Finset.eq_of_subset_of_card_le hsub (le_of_eq hcard)
  refine ⟨?_, heq⟩
  have hcardc : c.toFinset.card = c.length := List.toFinset_card_of_nodup hc
  have hul : u.toFinset.card = u.length := by
    rw [heq, hcardc, hlen]
  rw [List.card_toFinset] at hul
  have hdedup : u.dedup = u := (u.dedup_sublist).eq_of_length hul
  exact List.dedup_eq_self.mp hdedup

theorem nodup_zip_tail : ∀ (l : List String), l.Nodup → (l.zip l.tail).Nodup
  | [], _ => by simp
  | [_], _ => by simp
  | a :: b :: t, h => by
    have ih := nodup_zip_tail (b :: t) h.of_cons
    refine List.nodup_cons.mpr ⟨?_, ih⟩
    intro hmem
    exact (List.nodup_cons.mp h).1 (List.of_mem_zip hmem).1

theorem append_cons_inj {x : Char} :
    ∀ {l1 l2 r1 r2 : List Char}, x ∉ l1 → x ∉ l2 →
      l1 ++ x :: r1 = l2 ++ x :: r2 → l1 = l2 ∧ r1 = r2
  | [], [], _, _, _, _, h => ⟨rfl, by simpa using h⟩
  | [], b :: l2, _, _, _, h2, h => by
    simp only [List.nil_append, List.cons_append, List.cons.injEq] at h
    exact absurd (h.1 ▸ List.mem_cons_self b l2) h2
  | a :: l1, [], _, _, h1, _, h => by
    simp only [List.cons_append, List.nil_append, List.cons.injEq] at h
    exact absurd (h.1.symm ▸ List.mem_cons_self a l1) h1
  | a :: l1, b :: l2, r1, r2, h1, h2, h => by
    simp only [List.cons_append, List.cons.injEq] at h
    have hrec := append_cons_inj (fun hx => h1 (List.mem_cons_of_mem a hx))
      (fun hx => h2 (List.mem_cons_of_mem b hx)) h.2
    exact ⟨by rw [h.1, hrec.1], hrec.2⟩

theorem pairKey_inj {a b c d : String} (ha : '-' ∉ a.data) (hc : '-' ∉ c.data)
    (h : pairKey a b = pairKey c d) : a = c ∧ b = d := by
  have hdata : a.data ++ '-' :: b.data = c.data ++ '-' :: d.data := by
    have := congrArg String.data h
    simpa [pairKey, String.data_append] using this
  have := append_cons_inj ha hc hdata
  exact ⟨String.ext this.1, String.ext this.2⟩

theorem countP_mem_swap {α : Type} [DecidableEq α] (l1 l2 : List α) (p q : α → Bool)
    (hp : ∀ x, p x = true ↔ x ∈ l2) (hq : ∀ x, q x = true ↔ x ∈ l1)
    (h1 : l1.Nodup) (h2 : l2.Nodup) :
    l1.countP p = l2.countP q := by
  have key : ∀ (la lb : List α) (r : α → Bool), la.Nodup → (∀ x, r x = true ↔ x ∈ lb) →
      la.countP r = (la.toFinset ∩ lb.toFinset).card := by
    intro la lb r ha hr
    rw [List.countP_eq_length_filter, ← List.toFinset_card_of_nodup (ha.filter _),
      List.toFinset_filter]
    congr 1
    ext x
    simp [Finset.mem_inter, List.mem_toFinset, hr]
  rw [key l1 l2 p h1 hp, key l2 l1 q h2 hq, Finset.inter_comm]

theorem positional_eq_spec (u c : List String) (hlen : u.length = c.length) :
    calculatePositionalScore u c = specPositionalScore u c := by
  unfold calculatePositionalScore specPositionalScore
  rw [hlen, min_self]

theorem adjacency_eq_spec (u c : List String) (hc : c.Nodup) (hu : u.Nodup)
    (hmem : ∀ x ∈ u, x ∈ c) (hhyph : ∀ s ∈ c, '-' ∉ s.data) :
    calculateAdjacentPairsScore u c = specAdjacencyScore u c := by
  unfold calculateAdjacentPairsScore specAdjacencyScore
  by_cases hlt : c.length < 2
  · rw [if_pos hlt, if_pos hlt]
  · rw [if_neg hlt, if_neg hlt]
    show (((u.zip u.tail).countP
        fun p => ((c.zip c.tail).map fun q => pairKey q.1 q.2).contains (pairKey p.1 p.2)) : ℚ) /
        ((c.length - 1 : ℕ) : ℚ) =
      (((c.zip c.tail).countP fun p => decide (p ∈ u.zip u.tail)) : ℚ) /
        ((c.length - 1 : ℕ) : ℚ)
    have step1 :
        (u.zip u.tail).countP
            (fun p => ((c.zip c.tail).map fun q => pairKey q.1 q.2).contains (pairKey p.1 p.2)) =
          (u.zip u.tail).countP (fun p => decide (p ∈ c.zip c.tail)) := by
      refine List.countP_congr fun p hp => ?_
      have hp1 : p.1 ∈ u := by
        rcases p with ⟨p1, p2⟩
        exact (List.of_mem_zip hp).1
      have hp1c : '-' ∉ p.1.data := hhyph p.1 (hmem p.1 hp1)
      constructor
      · intro hcont
        rw [show (((c.zip c.tail).map fun q => pairKey q.1 q.2).contains (pairKey p.1 p.2)) =
            List.elem (pairKey p.1 p.2) ((c.zip c.tail).map fun q => pairKey q.1 q.2) from rfl,
          List.elem_iff] at hcont
        rcases List.mem_map.mp hcont with ⟨q, hq, hkey⟩
        have hq1 : q.1 ∈ c := by
          rcases q with ⟨q1, q2⟩
          exact (List.of_mem_zip hq).1
        have := pairKey_inj (hhyph q.1 hq1) hp1c hkey
        have hqp : q = p := Prod.ext this.1 this.2
        rw [decide_eq_true_eq]
        exact hqp ▸ hq
      · intro hdec
        rw [decide_eq_true_eq] at hdec
        rw [show (((c.zip c.tail).map fun q => pairKey q.1 q.2).contains (pairKey p.1 p.2)) =
            List.elem (pairKey p.1 p.2) ((c.zip c.tail).map fun q => pairKey q.1 q.2) from rfl,
          List.elem_iff]
        exact List.mem_map.mpr ⟨p, hdec, rfl⟩
    rw [step1, countP_mem_swap (u.zip u.tail) (c.zip c.tail)
      (fun p => decide (p ∈ c.zip c.tail)) (fun p => decide (p ∈ u.zip u.tail))
      (fun x => by simp) (fun x => by simp)
      (nodup_zip_tail u hu) (nodup_zip_tail c hc)]

theorem calculateCredit_nonneg (u c : List String) : 0 ≤ calculateCredit u c := by
  have hp : (0 : ℚ) ≤ calculatePositionalScore u c := by
    unfold calculatePositionalScore
    positivity
  exact le_trans hp (le_trans (le_max_left _ _) (le_max_left _ _))

theorem grade_score_eq_credit (j : Json) (u c : List String)
    (hp : seqAnswerParse j = some u) (hchk : checkSequenceItems u c = none)
    (hne : arraysEqual u c = false) :
    (gradeSequenceQuestion j c true).score = calculateCredit u c := by
  simp only [gradeSequenceQuestion, hp, hchk, hne, Bool.false_eq_true, if_false]
  by_cases hpos : calculateCredit u c > 0
  · simp [hpos]
  · have h0 : calculateCredit u c = 0 :=
      le_antisymm (not_lt.mp hpos) (calculateCredit_nonneg u c)
    simp [hpos, h0]

/-- C1 (amended): for a validated, not exactly matching sequence answer,
with partial credit enabled, and provided the correct sequence has no
duplicated ids and no id containing the hyphen character the implementation
uses as its pair separator, the score is the maximum of the spec's positional,
LCS and adjacency sub-scores, where the LCS length is genuinely the maximal
common-subsequence length; the spec's reversed-sequence example scores
positional 1/3, LCS 1/3, adjacency 0 and overall 1/3. -/
theorem sequence_credit_best_of_three (j : Json) (c u : List String)
    (hp : seqAnswerParse j = some u)
    (hchk : checkSequenceItems u c = none)
    (hne : u ≠ c)
    (hcnd : c.Nodup)
    (hhyph : ∀ s ∈ c, '-' ∉ s.data) :
    (gradeSequenceQuestion j c true).score = specSequenceBestScore u c ∧
    IsMaxLcsLen u c (longestCommonSubsequence u c) ∧
    (gradeSequenceQuestion (mkSequenceAnswer ["c", "b", "a"]) ["a", "b", "c"] true).score
      = 1/3 ∧
    specPositionalScore ["c", "b", "a"] ["a", "b", "c"] = 1/3 ∧
    calculateLongestCommonSubsequenceScore ["c", "b", "a"] ["a", "b", "c"] = 1/3 ∧
    specAdjacencyScore ["c", "b", "a"] ["a", "b", "c"] = 0 ∧
    specSequenceBestScore ["c", "b", "a"] ["a", "b", "c"] = 1/3 := by
  refine ⟨?_, longestCommonSubsequence_spec u c, by decide, by decide, by decide, by decide,
    by decide⟩
  have hne' : arraysEqual u c = false := by
    rcases Bool.eq_false_or_eq_true (arraysEqual u c) with h | h
    · exact absurd ((arraysEqual_iff u c).mp h) hne
    · exact h
  rcases (checkSequenceItems_none_iff u c).mp hchk with ⟨hlen, -, hmem⟩
  rcases user_facts_of_valid u c hchk hcnd with ⟨hund, -⟩
  rw [grade_score_eq_credit j u c hp hchk hne']
  unfold calculateCredit specSequenceBestScore
  rw [positional_eq_spec u c hlen, adjacency_eq_spec u c hcnd hund hmem hhyph]

/-- Witness for C1 at the spec's reversed-sequence example, which satisfies
every hypothesis of the amended claim: the graded score equals the spec's
best-of-three score, namely 1/3. -/
theorem sequence_credit_best_of_three_witness :
    (gradeSequenceQuestion (mkSequenceAnswer ["c", "b", "a"]) ["a", "b", "c"] true).score =
      specSequenceBestScore ["c", "b", "a"] ["a", "b", "c"] ∧
    specSequenceBestScore ["c", "b", "a"] ["a", "b", "c"] = 1/3 :=
  ⟨(sequence_credit_best_of_three (mkSequenceAnswer ["c", "b", "a"]) ["a", "b", "c"]
      ["c", "b", "a"] rfl (by decide) (by decide) (by decide) (by decide)).1,
    by decide⟩

/-- Counterexample to C1 as stated: for the validated, non-matching answer
["a-a", "a"] against the duplicate-free correct sequence ["a", "a-a"], the
implementation returns score 1 while the maximum of the three sub-scores the
claim describes is 1/2. The implementation encodes each adjacent pair as the
two ids joined by a hyphen, so the correct pair (a, a-a) and the user pair
(a-a, a) collide on the key a-a-a and the adjacency sub-score becomes 1
instead of 0. -/
theorem sequence_credit_best_of_three_counterexample :
    validateSequenceAnswer (mkSequenceAnswer ["a-a", "a"]) ["a", "a-a"] = none ∧
    ["a-a", "a"] ≠ ["a", "a-a"] ∧
    (["a", "a-a"] : List String).Nodup ∧
    (gradeSequenceQuestion (mkSequenceAnswer ["a-a", "a"]) ["a", "a-a"] true).score = 1 ∧
    specSequenceBestScore ["a-a", "a"] ["a", "a-a"] = 1/2 := by
  refine ⟨by decide, by decide, by decide, by decide, by decide⟩

/-! ## Claim C3: dropdown partial credit -/

theorem lev_diag (s : List Char) : ∀ i, levCell s s i i = 0 := by
  intro i
  induction i with
  | zero => rfl
  | succ i ih =>
    rw [levCell_succ_succ, if_pos rfl, ih]
    omega

theorem lev_col_zero (s1 s2 : List Char) (j : ℕ) : levCell s1 s2 j 0 = j := by
  cases j <;> rfl

theorem lev_le_max (s1 s2 : List Char) : ∀ j i, levCell s1 s2 j i ≤ max i j := by
  intro j
  induction j with
  | zero =>
    intro i
    rw [levCell_zero]
    exact le_max_left _ _
  | succ j ihj =>
    intro i
    induction i with
    | zero =>
      rw [levCell_succ_zero]
      exact le_max_right _ _
    | succ i ihi =>
      have h3 := ihj i
      have hind : (if s1.getD i ' ' = s2.getD j ' ' then 0 else 1) ≤ 1 := by split <;> omega
      rw [levCell_succ_succ]
      omega

/-- The normalised Levenshtein similarity computed by
calculateStringSimilarity coincides, on every pair of inputs, with the closed
form 1 - editDistance / maxLength (after the case folding the caseSensitive
flag selects). -/
theorem calculateStringSimilarity_eq (str1 str2 : String) (cs : Bool) :
    calculateStringSimilarity str1 str2 cs =
      1 - (levDistance (if cs then str1 else jsToLower str1).data
            (if cs then str2 else jsToLower str2).data : ℚ) /
          ((max (if cs then str1 else jsToLower str1).length
            (if cs then str2 else jsToLower str2).length : ℕ) : ℚ) := by
  unfold calculateStringSimilarity
  generalize (if cs then str1 else jsToLower str1) = s1
  generalize (if cs then str2 else jsToLower str2) = s2
  have hlen1 : s1.length = s1.data.length := rfl
  have hlen2 : s2.length = s2.data.length := rfl
  by_cases heq : s1 = s2
  · subst heq
    rw [if_pos rfl]
    unfold levDistance
    rw [lev_diag s1.data]
    simp
  · rw [if_neg heq]
    by_cases hz : s1.length = 0 ∨ s2.length = 0
    · rw [if_pos hz]
      rcases hz with hz | hz
      · have hd1 : s1.data = [] := List.length_eq_zero.mp (hlen1 ▸ hz)
        have hn : s2.length ≠ 0 := fun hz2 =>
          heq (String.ext (by
            rw [hd1]
            exact (List.length_eq_zero.mp (hlen2 ▸ hz2)).symm))
        unfold levDistance
        rw [hd1]
        simp only [List.length_nil]
        rw [lev_col_zero, hz, max_eq_right (Nat.zero_le _), ← hlen2,
          div_self (by exact_mod_cast hn)]
        norm_num
      · have hd2 : s2.data = [] := List.length_eq_zero.mp (hlen2 ▸ hz)
        have hn : s1.length ≠ 0 := fun hz1 =>
          heq (String.ext (by
            rw [hd2]
            exact List.length_eq_zero.mp (hlen1 ▸ hz1)))
        unfold levDistance
        rw [hd2]
        simp only [List.length_nil]
        rw [levCell_zero, hz, max_eq_left (Nat.zero_le _), ← hlen1,
          div_self (by exact_mod_cast hn)]
        norm_num
    · rw [if_neg hz]
      push_neg at hz
      have hle : levDistance s1.data s2.data ≤ max s1.length s2.length := by
        unfold levDistance
        rw [hlen1, hlen2]
        exact lev_le_max s1.data s2.data _ _
      have hmax : ((max s1.length s2.length : ℕ) : ℚ) ≠ 0 := by
        have h0 : max s1.length s2.length ≠ 0 := by
          intro hcon
          exact hz.1 (le_antisymm (hcon ▸ le_max_left _ _) (Nat.zero_le _))
        exact_mod_cast h0
      show ((max s1.length s2.length - levDistance s1.data s2.data : ℕ) : ℚ) /
          ((max s1.length s2.length : ℕ) : ℚ) =
        1 - (levDistance s1.data s2.data : ℚ) / ((max s1.length s2.length : ℕ) : ℚ)
      rw [Nat.cast_sub hle, sub_div, div_self hmax]

/-- C3: for a validated dropdown answer that is not an exact match, with
partial credit enabled, the grader computes the normalised Levenshtein
similarity between the trimmed selection and the correct option's text (the
closed-form characterisation of that similarity is the final conjunct); it
awards round(maxScore * similarity, 2) with the credit flag set exactly when
the similarity strictly exceeds 0.8, scores 0 otherwise, and the matchType
stays none in every such case. -/
theorem dropdown_credit_threshold (q : DropdownQuestionData) (j : Json)
    (opts : DropdownGradeOpts) (s : String)
    (hsel : dropdownSelected j = some s)
    (hv : validateDropdownAnswer j = none)
    (hac : opts.allowCredit.getD false = true)
    (hnx : (if opts.caseSensitive.getD false then jsTrim s == getCorrectOption q
            else jsToLower (jsTrim s) == jsToLower (getCorrectOption q)) = false) :
    ((8/10 : ℚ) <
        calculateStringSimilarity (jsTrim s) (getCorrectOption q)
          (opts.caseSensitive.getD false) →
      (gradeDropdownQuestion q j opts).score =
          (jsRound (opts.maxScore.getD 1 *
            calculateStringSimilarity (jsTrim s) (getCorrectOption q)
              (opts.caseSensitive.getD false) * 100) : ℚ) / 100 ∧
      (gradeDropdownQuestion q j opts).creditAwarded = true) ∧
    (¬ (8/10 : ℚ) <
        calculateStringSimilarity (jsTrim s) (getCorrectOption q)
          (opts.caseSensitive.getD false) →
      (gradeDropdownQuestion q j opts).score = 0 ∧
      (gradeDropdownQuestion q j opts).creditAwarded = false) ∧
    (gradeDropdownQuestion q j opts).gradingDetails.matchType = "none" ∧
    (∀ (t1 t2 : String) (cs : Bool),
      calculateStringSimilarity t1 t2 cs =
        1 - (levDistance (if cs then t1 else jsToLower t1).data
              (if cs then t2 else jsToLower t2).data : ℚ) /
            ((max (if cs then t1 else jsToLower t1).length
              (if cs then t2 else jsToLower t2).length : ℕ) : ℚ)) := by
  have hgrade : gradeDropdownQuestion q j opts =
      (if calculateStringSimilarity (jsTrim s) (getCorrectOption q)
          (opts.caseSensitive.getD false) > 8/10 then
        { score := (jsRound (opts.maxScore.getD 1 *
              calculateStringSimilarity (jsTrim s) (getCorrectOption q)
                (opts.caseSensitive.getD false) * 100) : ℚ) / 100
          maxScore := opts.maxScore.getD 1, isCorrect := false
          feedback := generateDropdownFeedback "partial" (jsTrim s) (getCorrectOption q) q
            (some (calculateStringSimilarity (jsTrim s) (getCorrectOption q)
              (opts.caseSensitive.getD false)))
          selectedOption := jsTrim s, correctOption := getCorrectOption q
          creditAwarded := true
          gradingDetails := ⟨"incorrect", "none", opts.caseSensitive.getD false⟩ }
      else
        { score := 0
          maxScore := opts.maxScore.getD 1, isCorrect := false
          feedback := generateDropdownFeedback "incorrect" (jsTrim s) (getCorrectOption q) q none
          selectedOption := jsTrim s, correctOption := getCorrectOption q
          creditAwarded := false
          gradingDetails := ⟨"incorrect", "none", opts.caseSensitive.getD false⟩ }) := by
    simp only [gradeDropdownQuestion, hv, hsel, Option.getD_some, hnx, hac,
      Bool.false_eq_true, if_false, if_true]
  by_cases hsim : calculateStringSimilarity (jsTrim s) (getCorrectOption q)
      (opts.caseSensitive.getD false) > 8/10
  · rw [hgrade, if_pos hsim]
    exact ⟨fun _ => ⟨rfl, rfl⟩, fun hc => absurd hsim hc, rfl, calculateStringSimilarity_eq⟩
  · rw [hgrade, if_neg hsim]
    exact ⟨fun hc => absurd hc hsim, fun _ => ⟨rfl, rfl⟩, rfl, calculateStringSimilarity_eq⟩

/-- Witness for C3: the answer Pariss against correct option Paris has
similarity 5/6, above the 0.8 threshold, so the score is
round(1 * 5/6, 2) = 0.83 with the credit flag set and matchType none. -/
theorem dropdown_credit_threshold_witness :
    (gradeDropdownQuestion parisQuestion (mkDropdownAnswer "Pariss")
        ⟨none, some true, none⟩).score = 83/100 ∧
    (gradeDropdownQuestion parisQuestion (mkDropdownAnswer "Pariss")
        ⟨none, some true, none⟩).creditAwarded = true ∧
    (gradeDropdownQuestion parisQuestion (mkDropdownAnswer "Pariss")
        ⟨none, some true, none⟩).gradingDetails.matchType = "none" := by
  have h := dropdown_credit_threshold parisQuestion (mkDropdownAnswer "Pariss")
    ⟨none, some true, none⟩ "Pariss" rfl (by decide) (by decide) (by decide)
  have hs := h.1 (by decide)
  refine ⟨?_, hs.2, h.2.2.1⟩
  rw [hs.1]
  decide
